import Mathlib

/-!
Shallow embedding of the tool5-roi-projector core: the ROI estimator
(calculate_roi in app.py), the pattern aggregator (log_patterns in
cip_engine_roi.py) and the insight generator (analyze_patterns in
cip_engine_roi.py).  Machine reals are modelled by exact rationals,
Python string operations by explicit character-list functions, and the
external pattern/projection store by association lists.
-/

/-- Python round: round half to even, acting on an exact rational. -/
def pyRound (q : ℚ) : ℤ :=
  if q - ⌊q⌋ < 1/2 then ⌊q⌋
  else if 1/2 < q - ⌊q⌋ then ⌊q⌋ + 1
  else if ⌊q⌋ % 2 = 0 then ⌊q⌋ else ⌊q⌋ + 1

/-- ASCII lower-casing of one character, as Python str.lower does on ASCII. -/
def lowerChar (c : Char) : Char :=
  if 'A' ≤ c ∧ c ≤ 'Z' then Char.ofNat (c.toNat + 32) else c

/-- Python str.lower on the ASCII strings this program manipulates. -/
def strLower (s : String) : String := ⟨s.data.map lowerChar⟩

/-- Whether the first list is an initial segment of the second. -/
def isPrefixList : List Char → List Char → Bool
  | [], _ => true
  | _ :: _, [] => false
  | a :: as, b :: bs => a = b && isPrefixList as bs

/-- Whether pat occurs contiguously inside the second list. -/
def subList (pat : List Char) : List Char → Bool
  | [] => pat.isEmpty
  | h :: t => isPrefixList pat (h :: t) || subList pat t

/-- Python substring containment: pat in hay. -/
def strContains (hay pat : String) : Bool := subList pat.data hay.data

/-- Raw request fields consumed by calculate_roi (app.py lines 41 to 49).
Absent process_name is modelled as the empty string, matching Python
truthiness of None and of the empty string in the validation check. -/
structure ProjectionInput where
  industry : Option String
  process_name : String
  hours_per_week : ℕ
  people_count : ℕ
  hourly_cost : ℚ
  current_tools_cost : ℚ

deriving instance DecidableEq, Repr for ProjectionInput

/-- app.py line 55: weekly_cost = hours_per_week * hourly_cost * people_count. -/
def weekly_cost (i : ProjectionInput) : ℚ :=
  (i.hours_per_week : ℚ) * i.hourly_cost * (i.people_count : ℚ)

/-- app.py line 56: annual_labor_cost = weekly_cost * 52. -/
def annual_labor_cost (i : ProjectionInput) : ℚ := weekly_cost i * 52

/-- app.py line 57: annual_tools_cost = current_tools_cost * 12. -/
def annual_tools_cost (i : ProjectionInput) : ℚ := i.current_tools_cost * 12

/-- app.py line 58: annual_cost_current = annual_labor_cost + annual_tools_cost. -/
def annual_cost_current (i : ProjectionInput) : ℚ :=
  annual_labor_cost i + annual_tools_cost i

/-- app.py line 63: automation_percentage = 0.65. -/
def automation_percentage : ℚ := 65/100

/-- app.py lines 75 and 77: case-insensitive keyword hits on process_name. -/
def hasDataKeyword (name : String) : Bool :=
  strContains (strLower name) "data" || strContains (strLower name) "analysis"

/-- app.py line 77: customer or support appears in the lowered process name. -/
def hasCustomerKeyword (name : String) : Bool :=
  strContains (strLower name) "customer" || strContains (strLower name) "support"

/-- app.py lines 70 to 78: additive complexity score. -/
def complexity_score (i : ProjectionInput) : ℕ :=
  (if 40 < i.hours_per_week then 2 else 0)
    + (if 5 < i.people_count then 2 else 0)
    + (if hasDataKeyword i.process_name then 1 else 0)
    + (if hasCustomerKeyword i.process_name then 1 else 0)

/-- app.py lines 81 to 86: implementation cost tier from the complexity score. -/
def implementation_cost (score : ℕ) : ℕ :=
  if score ≤ 2 then 8000 else if score ≤ 4 then 12000 else 18000

/-- Implementation cost of one input. -/
def impl_cost (i : ProjectionInput) : ℕ := implementation_cost (complexity_score i)

/-- app.py lines 89 to 95: monthly AI cost tier from hours_per_week. -/
def monthly_ai_cost (h : ℕ) : ℕ := if h < 20 then 200 else if h < 40 then 400 else 800

/-- app.py line 97: annual_ai_cost = monthly_ai_cost * 12. -/
def annual_ai_cost (i : ProjectionInput) : ℕ := monthly_ai_cost i.hours_per_week * 12

/-- app.py line 101: hours_automated_weekly = hours_per_week * automation_percentage. -/
def hours_automated_weekly (i : ProjectionInput) : ℚ :=
  (i.hours_per_week : ℚ) * automation_percentage

/-- app.py line 102: informational labor savings, not used downstream. -/
def annual_labor_savings (i : ProjectionInput) : ℚ :=
  hours_automated_weekly i * i.hourly_cost * (i.people_count : ℚ) * 52

/-- app.py line 105: annual_cost_with_ai = annual_ai_cost. -/
def annual_cost_with_ai (i : ProjectionInput) : ℚ := (annual_ai_cost i : ℚ)

/-- app.py line 108: annual_savings = annual_cost_current - annual_cost_with_ai. -/
def annual_savings (i : ProjectionInput) : ℚ :=
  annual_cost_current i - annual_cost_with_ai i

/-- app.py line 111: roi_percentage. -/
def roi_percentage (i : ProjectionInput) : ℚ :=
  (annual_savings i - (impl_cost i : ℚ)) / (impl_cost i : ℚ) * 100

/-- app.py lines 114 to 117: breakeven months with sentinel 999. -/
def breakeven_months (i : ProjectionInput) : ℤ :=
  if 0 < annual_savings i then
    max 1 (pyRound ((impl_cost i : ℚ) / annual_savings i * 12))
  else 999

/-- app.py lines 120 to 129: risk chain, first matching rule wins.  The
automation fraction is passed in so that its role can be stated. -/
def riskLevel (automation : ℚ) (breakeven : ℤ) (complexity : ℕ)
    (savings impl : ℚ) : String :=
  if 8/10 < automation then "High"
  else if 18 < breakeven then "High"
  else if 5 < complexity then "Medium"
  else if savings < impl then "High"
  else "Low"

/-- Risk level of one input, with the fixed automation constant. -/
def risk_level (i : ProjectionInput) : String :=
  riskLevel automation_percentage (breakeven_months i) (complexity_score i)
    (annual_savings i) (impl_cost i)

/-- The four recommendation branches of app.py lines 132 to 163. -/
inductive RecommendationTier
  | strong
  | good
  | moderate
  | concerns

deriving instance DecidableEq, Repr for RecommendationTier

/-- app.py lines 132 to 163: tier selection, first matching rule wins. -/
def recommendation_tier (roi : ℚ) (breakeven : ℤ) : RecommendationTier :=
  if 200 < roi ∧ breakeven ≤ 12 then .strong
  else if 100 < roi ∧ breakeven ≤ 18 then .good
  else if 50 < roi then .moderate
  else .concerns

/-- app.py lines 166 to 173: optional industry note.  The Python guard
if industry is false for None and for the empty string. -/
def industry_note (industry : Option String) : String :=
  match industry with
  | none => ""
  | some ind =>
    if ind = "" then ""
    else if strLower ind ∈ (["healthcare", "finance", "legal"] : List String) then
      "Note: " ++ ind ++ " has compliance requirements that may add 20-30% to implementation cost and timeline."
    else if strLower ind ∈ (["logistics", "manufacturing"] : List String) then
      "Note: " ++ ind ++ " automation typically sees 70-80% efficiency gains - your projection may be conservative."
    else if strLower ind ∈ (["retail", "ecommerce"] : List String) then
      "Note: " ++ ind ++ " AI automation has proven ROI - fast implementation typical."
    else ""

/-- The derived quantities of one projection, as assembled by calculate_roi. -/
structure ProjectionResult where
  weekly_cost : ℚ
  annual_labor_cost : ℚ
  annual_tools_cost : ℚ
  annual_cost_current : ℚ
  complexity_score : ℕ
  implementation_cost : ℕ
  monthly_ai_cost : ℕ
  annual_ai_cost : ℕ
  annual_savings : ℚ
  roi_percentage : ℚ
  breakeven_months : ℤ
  risk_level : String
  tier : RecommendationTier
  industry_note : String

deriving instance DecidableEq, Repr for ProjectionResult

/-- Assembly of all derived quantities for a validated input. -/
def estimateResult (i : ProjectionInput) : ProjectionResult :=
  ⟨weekly_cost i, annual_labor_cost i, annual_tools_cost i, annual_cost_current i,
    complexity_score i, impl_cost i, monthly_ai_cost i.hours_per_week,
    annual_ai_cost i, annual_savings i, roi_percentage i, breakeven_months i,
    risk_level i, recommendation_tier (roi_percentage i) (breakeven_months i),
    industry_note i.industry⟩

/-- app.py lines 51 to 52 with the computation that follows: validation
then projection; none models the 400 response. -/
def calculate_roi (i : ProjectionInput) : Option ProjectionResult :=
  if i.process_name = "" ∨ i.hours_per_week = 0 ∨ i.hourly_cost = 0 then none
  else some (estimateResult i)

/-- One row of the roi_patterns table (cip_engine_roi.py): a running
incremental average keyed by pattern type and pattern key. -/
structure PatternStats where
  frequency : ℕ
  avg_savings : ℚ
  avg_roi : ℚ

deriving instance DecidableEq, Repr for PatternStats

/-- The upsert-with-merge of cip_engine_roi.py lines 51 to 60: insert at
frequency 1, or fold one observation into the running averages. -/
def mergeObs : Option PatternStats → ℚ → ℚ → PatternStats
  | none, s, r => ⟨1, s, r⟩
  | some st, s, r =>
    ⟨st.frequency + 1,
      (st.avg_savings * (st.frequency : ℚ) + s) / ((st.frequency : ℚ) + 1),
      (st.avg_roi * (st.frequency : ℚ) + r) / ((st.frequency : ℚ) + 1)⟩

/-- A pattern record is addressed by (pattern_type, pattern_data). -/
abbrev PatternKey := String × String

/-- The roi_patterns table, as an association list. -/
abbrev PatternStore := List (PatternKey × PatternStats)

/-- Reading one pattern record. -/
def lookupPattern : PatternStore → PatternKey → Option PatternStats
  | [], _ => none
  | (k, v) :: rest, key => if k = key then some v else lookupPattern rest key

/-- The ON CONFLICT DO UPDATE upsert on one key. -/
def upsertPattern : PatternStore → PatternKey → ℚ → ℚ → PatternStore
  | [], key, s, r => [(key, mergeObs none s r)]
  | (k, v) :: rest, key, s, r =>
    if k = key then (k, mergeObs (some v) s r) :: rest
    else (k, v) :: upsertPattern rest key s r

/-- The projection_data dict handed to log_patterns (app.py lines 225 to 230). -/
structure PatternObservation where
  industry : Option String
  process_name : Option String
  annual_savings : ℚ
  roi_percentage : ℚ

deriving instance DecidableEq, Repr for PatternObservation

/-- cip_engine_roi.py lines 44 to 87: the three guarded upserts of
log_patterns.  The Python truthiness guards are kept exactly: the
industry block requires industry, annual_savings and roi_percentage all
truthy; the process block requires process_name and annual_savings
truthy; the high-value block requires annual_savings truthy and above
50000. -/
def log_patterns (st : PatternStore) (d : PatternObservation) : PatternStore :=
  let st1 :=
    match d.industry with
    | some ind =>
      if ind ≠ "" ∧ d.annual_savings ≠ 0 ∧ d.roi_percentage ≠ 0 then
        upsertPattern st ("industry_roi", ind) d.annual_savings d.roi_percentage
      else st
    | none => st
  let st2 :=
    match d.process_name with
    | some p =>
      if p ≠ "" ∧ d.annual_savings ≠ 0 then
        upsertPattern st1 ("process_savings", p) d.annual_savings d.roi_percentage
      else st1
    | none => st1
  if d.annual_savings ≠ 0 ∧ 50000 < d.annual_savings then
    upsertPattern st2 ("high_value", "high_value") d.annual_savings d.roi_percentage
  else st2

/-- The keyed observations one projection_data dict generates, in the
order the three blocks of log_patterns run. -/
def obsOf (d : PatternObservation) : List (PatternKey × ℚ × ℚ) :=
  (match d.industry with
    | some ind =>
      if ind ≠ "" ∧ d.annual_savings ≠ 0 ∧ d.roi_percentage ≠ 0 then
        [(("industry_roi", ind), d.annual_savings, d.roi_percentage)]
      else []
    | none => [])
  ++ (match d.process_name with
    | some p =>
      if p ≠ "" ∧ d.annual_savings ≠ 0 then
        [(("process_savings", p), d.annual_savings, d.roi_percentage)]
      else []
    | none => [])
  ++ (if d.annual_savings ≠ 0 ∧ 50000 < d.annual_savings then
        [(("high_value", "high_value"), d.annual_savings, d.roi_percentage)]
      else [])

/-- Folding a sequence of (savings, roi) observations into one pattern
record that currently holds o. -/
def foldObsFrom (o : Option PatternStats) (l : List (ℚ × ℚ)) : Option PatternStats :=
  l.foldl (fun acc p => some (mergeObs acc p.1 p.2)) o

/-- Folding a sequence of observations into an absent record. -/
def foldObs (l : List (ℚ × ℚ)) : Option PatternStats := foldObsFrom none l

/-- Sum of the savings components. -/
def sumS (l : List (ℚ × ℚ)) : ℚ := (l.map Prod.fst).sum

/-- Sum of the roi components. -/
def sumR (l : List (ℚ × ℚ)) : ℚ := (l.map Prod.snd).sum

/-- The observations a sequence of log_patterns calls directs at one key. -/
def obsFor (k : PatternKey) (ds : List PatternObservation) : List (ℚ × ℚ) :=
  ((ds.map obsOf).flatten).filterMap (fun p => if p.1 = k then some p.2 else none)

/-- One row of the roi_projections table, as read by analyze_patterns. -/
structure RoiProjection where
  process_name : String
  industry : Option String
  annual_savings : ℚ
  roi_percentage : ℚ

deriving instance DecidableEq, Repr for RoiProjection

/-- Rows of one process-name group. -/
def procMatches (ps : List RoiProjection) (n : String) : List RoiProjection :=
  ps.filter (fun p => p.process_name = n)

/-- Size of one process-name group. -/
def procCount (ps : List RoiProjection) (n : String) : ℕ := (procMatches ps n).length

/-- AVG(annual_savings) of one process-name group. -/
def procAvgSavings (ps : List RoiProjection) (n : String) : ℚ :=
  ((procMatches ps n).map (·.annual_savings)).sum / (procCount ps n : ℚ)

/-- AVG(roi_percentage) of one process-name group. -/
def procAvgRoi (ps : List RoiProjection) (n : String) : ℚ :=
  ((procMatches ps n).map (·.roi_percentage)).sum / (procCount ps n : ℚ)

/-- The distinct process names, the GROUP BY candidates. -/
def procNames (ps : List RoiProjection) : List String :=
  (ps.map (·.process_name)).dedup

/-- Process names passing HAVING COUNT(*) >= 3. -/
def qualifyingProcs (ps : List RoiProjection) : List String :=
  (procNames ps).filter (fun n => 3 ≤ procCount ps n)

/-- First maximiser of f in the list, the row ORDER BY f DESC LIMIT 1. -/
def argmaxBy (f : String → ℚ) : List String → Option String
  | [] => none
  | x :: xs => some (xs.foldl (fun b y => if f b < f y then y else b) x)

/-- The best-ROI process picked at cip_engine_roi.py line 147. -/
def topProcess (ps : List RoiProjection) : Option String :=
  argmaxBy (procAvgRoi ps) (qualifyingProcs ps)

/-- Rows of one industry group (industry IS NOT NULL). -/
def indMatches (ps : List RoiProjection) (i : String) : List RoiProjection :=
  ps.filter (fun p => p.industry = some i)

/-- Size of one industry group. -/
def indCount (ps : List RoiProjection) (i : String) : ℕ := (indMatches ps i).length

/-- AVG(annual_savings) of one industry group. -/
def indAvgSavings (ps : List RoiProjection) (i : String) : ℚ :=
  ((indMatches ps i).map (·.annual_savings)).sum / (indCount ps i : ℚ)

/-- AVG(roi_percentage) of one industry group. -/
def indAvgRoi (ps : List RoiProjection) (i : String) : ℚ :=
  ((indMatches ps i).map (·.roi_percentage)).sum / (indCount ps i : ℚ)

/-- The distinct non-null industries. -/
def indNames (ps : List RoiProjection) : List String :=
  (ps.filterMap (·.industry)).dedup

/-- Industries passing HAVING COUNT(*) >= 3. -/
def qualifyingInds (ps : List RoiProjection) : List String :=
  (indNames ps).filter (fun i => 3 ≤ indCount ps i)

/-- The best-savings industry picked at cip_engine_roi.py line 167. -/
def topIndustry (ps : List RoiProjection) : Option String :=
  argmaxBy (indAvgSavings ps) (qualifyingInds ps)

/-- One row inserted into roi_insights, with its structured supporting data. -/
structure RoiInsight where
  insight_type : String
  confidence : ℚ
  key : String
  frequency : ℕ
  avg_savings : ℚ
  avg_roi : ℚ

deriving instance DecidableEq, Repr for RoiInsight

/-- cip_engine_roi.py lines 107 to 187: analyze_patterns over the
accumulated projections.  Each nonempty ranking contributes exactly one
insight; an empty ranking contributes nothing. -/
def analyze_patterns (ps : List RoiProjection) : List RoiInsight :=
  (match topProcess ps with
    | some n =>
      [⟨"best_roi_process", 95/100, n, procCount ps n, procAvgSavings ps n, procAvgRoi ps n⟩]
    | none => [])
  ++ (match topIndustry ps with
    | some i =>
      [⟨"best_savings_industry", 90/100, i, indCount ps i, indAvgSavings ps i, indAvgRoi ps i⟩]
    | none => [])

/-- The input of the worked spec example: 30 hours, 2 people, 40 per hour,
no tools cost, process Invoice Processing, industry absent. -/
def exampleInput : ProjectionInput := ⟨none, "Invoice Processing", 30, 2, 40, 0⟩

/-- A second valid input whose annual savings are negative: 1 hour, 1
person, 1 per hour, no tools cost. -/
def tinyInput : ProjectionInput := ⟨none, "Tiny Task", 1, 1, 1, 0⟩

/-- A valid input with a matching industry. -/
def healthcareInput : ProjectionInput := ⟨some "Healthcare", "Claims Intake", 10, 1, 25, 0⟩

/-- An input satisfying none of the four complexity conditions. -/
def simpleInput : ProjectionInput := ⟨none, "Invoicing", 10, 1, 10, 0⟩

/-- An input satisfying all four complexity conditions. -/
def complexInput : ProjectionInput := ⟨none, "customer data analysis", 50, 10, 10, 0⟩

/-- A projection_data dict with industry present, nonzero savings and a
zero roi_percentage. -/
def zeroRoiObservation : PatternObservation := ⟨some "finance", some "Invoice Processing", 8000, 0⟩

/-- Three projections of one process group, industry always absent. -/
def threeOfOneProcess : List RoiProjection :=
  [⟨"Invoice Processing", none, 100, 10⟩,
   ⟨"Invoice Processing", none, 200, 30⟩,
   ⟨"Invoice Processing", none, 300, 20⟩]

/-! Helper lemmas about the pattern store. -/

theorem lookupPattern_upsertPattern (st : PatternStore) (key : PatternKey)
    (s r : ℚ) (k : PatternKey) :
    lookupPattern (upsertPattern st key s r) k =
      if k = key then some (mergeObs (lookupPattern st key) s r)
      else lookupPattern st k := by
  induction st with
  | nil =>
    by_cases h : k = key
    · subst h; simp [upsertPattern, lookupPattern]
    · have h2 : ¬ key = k := fun hh => h hh.symm
      simp [upsertPattern, lookupPattern, h, h2]
  | cons hd tl ih =>
    obtain ⟨k1, v1⟩ := hd
    by_cases h1 : k1 = key
    · subst h1
      by_cases h2 : k = k1
      · subst h2; simp [upsertPattern, lookupPattern]
      · have h3 : ¬ k1 = k := fun hh => h2 hh.symm
        simp [upsertPattern, lookupPattern, h2, h3]
    · by_cases h2 : k1 = k
      · subst h2
        simp [upsertPattern, lookupPattern, h1]
      · simp only [upsertPattern, if_neg h1, lookupPattern, if_neg h2, ih]

theorem foldObsFrom_cons (o : Option PatternStats) (p : ℚ × ℚ) (l : List (ℚ × ℚ)) :
    foldObsFrom o (p :: l) = foldObsFrom (some (mergeObs o p.1 p.2)) l := rfl

theorem foldObsFrom_some (l : List (ℚ × ℚ)) :
    ∀ (n : ℕ) (S R : ℚ), n ≠ 0 →
      foldObsFrom (some ⟨n, S / (n : ℚ), R / (n : ℚ)⟩) l =
        some ⟨n + l.length, (S + sumS l) / ((n : ℚ) + (l.length : ℚ)),
          (R + sumR l) / ((n : ℚ) + (l.length : ℚ))⟩ := by
  induction l with
  | nil =>
    intro n S R hn
    simp [foldObsFrom, sumS, sumR]
  | cons p t ih =>
    intro n S R hn
    have hncast : ((n : ℚ)) ≠ 0 := Nat.cast_ne_zero.mpr hn
    rw [foldObsFrom_cons]
    have hmerge : mergeObs (some ⟨n, S / (n : ℚ), R / (n : ℚ)⟩) p.1 p.2 =
        ⟨n + 1, (S + p.1) / ((n + 1 : ℕ) : ℚ), (R + p.2) / ((n + 1 : ℕ) : ℚ)⟩ := by
      simp only [mergeObs, PatternStats.mk.injEq]
      refine ⟨trivial, ?_, ?_⟩ <;> push_cast <;> rw [div_mul_cancel₀ _ hncast]
    rw [hmerge, ih (n + 1) (S + p.1) (R + p.2) (Nat.succ_ne_zero n)]
    refine congrArg some ?_
    simp only [List.length_cons, sumS, sumR, List.map_cons, List.sum_cons,
      PatternStats.mk.injEq]
    refine ⟨by omega, ?_, ?_⟩ <;> push_cast <;> ring_nf

theorem foldObs_eq_mean (l : List (ℚ × ℚ)) (hne : l ≠ []) :
    foldObs l = some ⟨l.length, sumS l / (l.length : ℚ), sumR l / (l.length : ℚ)⟩ := by
  match l, hne with
  | p :: t, _ =>
    have h1 : foldObs (p :: t) = foldObsFrom (some ⟨1, p.1 / ((1 : ℕ) : ℚ), p.2 / ((1 : ℕ) : ℚ)⟩) t := by
      rw [foldObs, foldObsFrom_cons]
      norm_num [mergeObs]
    rw [h1, foldObsFrom_some t 1 p.1 p.2 one_ne_zero]
    refine congrArg some ?_
    simp only [List.length_cons, sumS, sumR, List.map_cons, List.sum_cons,
      PatternStats.mk.injEq]
    refine ⟨by omega, ?_, ?_⟩ <;> push_cast <;> ring_nf

theorem log_patterns_eq_foldl (st : PatternStore) (d : PatternObservation) :
    log_patterns st d =
      (obsOf d).foldl (fun s p => upsertPattern s p.1 p.2.1 p.2.2) st := by
  obtain ⟨ind, pn, sv, roi⟩ := d
  simp only [log_patterns, obsOf]
  cases ind <;> cases pn <;> split_ifs <;> simp [List.foldl] <;>
    split_ifs <;> simp [List.foldl]

theorem filterMap_key_cons (k : PatternKey) (p : PatternKey × ℚ × ℚ)
    (t : List (PatternKey × ℚ × ℚ)) :
    (p :: t).filterMap (fun q => if q.1 = k then some q.2 else none) =
      (if p.1 = k then [p.2] else [])
        ++ t.filterMap (fun q => if q.1 = k then some q.2 else none) := by
  by_cases h : p.1 = k <;> simp [List.filterMap_cons, h]

theorem lookupPattern_foldl_upsert (l : List (PatternKey × ℚ × ℚ)) :
    ∀ (st : PatternStore) (k : PatternKey),
      lookupPattern (l.foldl (fun s p => upsertPattern s p.1 p.2.1 p.2.2) st) k =
        foldObsFrom (lookupPattern st k)
          (l.filterMap (fun p => if p.1 = k then some p.2 else none)) := by
  induction l with
  | nil => intro st k; rfl
  | cons p t ih =>
    intro st k
    rw [List.foldl_cons, ih, filterMap_key_cons]
    by_cases h : p.1 = k
    · rw [if_pos h, List.singleton_append, foldObsFrom_cons,
        lookupPattern_upsertPattern, if_pos h.symm, h]
    · rw [if_neg h, List.nil_append,
        lookupPattern_upsertPattern, if_neg (fun hh => h hh.symm)]

theorem foldl_log_patterns_eq (ds : List PatternObservation) :
    ∀ st : PatternStore,
      ds.foldl log_patterns st =
        ((ds.map obsOf).flatten).foldl (fun s p => upsertPattern s p.1 p.2.1 p.2.2) st := by
  induction ds with
  | nil => intro st; rfl
  | cons d t ih =>
    intro st
    rw [List.foldl_cons, ih, List.map_cons, List.flatten_cons, List.foldl_append,
      log_patterns_eq_foldl]

/-- Claim C1, counterexample: the projection_data dict with industry
finance, process name Invoice Processing, annual_savings 8000 and
roi_percentage 0 has its industry present, yet log_patterns merges no
industry-keyed observation for it, because the Python truthiness guard
also requires roi_percentage nonzero.  The claim says the industry
observation is merged whenever industry is present. -/
theorem C1_counterexample :
    zeroRoiObservation.industry = some "finance" ∧
    lookupPattern (log_patterns [] zeroRoiObservation) ("industry_roi", "finance") = none := by
  constructor
  · rfl
  · decide

/-- Claim C1 (amended): after any sequence of log_patterns folds starting
from the empty store, each key holds exactly the observations whose guard
admitted them: industry-keyed when industry is present AND annual_savings
and roi_percentage are both nonzero, process-keyed when process_name is
present AND annual_savings is nonzero, high-value exactly when
annual_savings is over 50000 (all per obsOf); and each pattern record then
has frequency equal to the number of admitted observations and
avg_savings/avg_roi equal to their arithmetic means. -/
theorem C1_pattern_merge_amended :
    (∀ (ds : List PatternObservation) (k : PatternKey),
        lookupPattern (ds.foldl log_patterns []) k = foldObs (obsFor k ds))
    ∧ (∀ (ds : List PatternObservation) (k : PatternKey),
        obsFor k ds ≠ [] →
          lookupPattern (ds.foldl log_patterns []) k =
            some ⟨(obsFor k ds).length,
              sumS (obsFor k ds) / ((obsFor k ds).length : ℚ),
              sumR (obsFor k ds) / ((obsFor k ds).length : ℚ)⟩) := by
  have main : ∀ (ds : List PatternObservation) (k : PatternKey),
      lookupPattern (ds.foldl log_patterns []) k = foldObs (obsFor k ds) := by
    intro ds k
    rw [foldl_log_patterns_eq, lookupPattern_foldl_upsert]
    rfl
  exact ⟨main, fun ds k h => by rw [main ds k, foldObs_eq_mean _ h]⟩

/-- Claim C1 witness: one fold with industry Tech, savings 60000, roi 650
leaves the industry pattern at frequency 1 with both averages equal to
the observation itself. -/
theorem C1_witness :
    obsFor ("industry_roi", "Tech") [⟨some "Tech", some "Ops", 60000, 650⟩] ≠ [] ∧
    lookupPattern ([(⟨some "Tech", some "Ops", 60000, 650⟩ : PatternObservation)].foldl log_patterns [])
        ("industry_roi", "Tech") =
      some ⟨(obsFor ("industry_roi", "Tech") [⟨some "Tech", some "Ops", 60000, 650⟩]).length,
        sumS (obsFor ("industry_roi", "Tech") [⟨some "Tech", some "Ops", 60000, 650⟩])
          / ((obsFor ("industry_roi", "Tech") [⟨some "Tech", some "Ops", 60000, 650⟩]).length : ℚ),
        sumR (obsFor ("industry_roi", "Tech") [⟨some "Tech", some "Ops", 60000, 650⟩])
          / ((obsFor ("industry_roi", "Tech") [⟨some "Tech", some "Ops", 60000, 650⟩]).length : ℚ)⟩ :=
  ⟨by decide, C1_pattern_merge_amended.2 _ _ (by decide)⟩

/-- Claim C6: folding a multiset of (savings, roi) observations into one
pattern record is order independent in exact arithmetic, and the final
record carries frequency equal to the number of observations and the
arithmetic means of the savings and roi components. -/
theorem C6_merge_order_independent :
    (∀ l₁ l₂ : List (ℚ × ℚ), l₁.Perm l₂ → foldObs l₁ = foldObs l₂)
    ∧ (∀ l : List (ℚ × ℚ), l ≠ [] →
        foldObs l = some ⟨l.length, sumS l / (l.length : ℚ), sumR l / (l.length : ℚ)⟩) := by
  constructor
  · intro l₁ l₂ hperm
    rcases eq_or_ne l₁ [] with h | h
    · subst h
      rw [(List.Perm.eq_nil hperm.symm)]
    · have h2 : l₂ ≠ [] := fun hh => h (List.Perm.eq_nil (hh ▸ hperm))
      have hs : sumS l₁ = sumS l₂ := (hperm.map Prod.fst).sum_eq
      have hr : sumR l₁ = sumR l₂ := (hperm.map Prod.snd).sum_eq
      rw [foldObs_eq_mean _ h, foldObs_eq_mean _ h2, hperm.length_eq, hs, hr]
  · exact foldObs_eq_mean

/-- Claim C6 witness: swapping two concrete observations leaves the fold
unchanged, and the fold of the two equals their mean record. -/
theorem C6_witness :
    foldObs [((100 : ℚ), (10 : ℚ)), (200, 30)] = foldObs [(200, 30), (100, 10)] ∧
    foldObs [((100 : ℚ), (10 : ℚ)), (200, 30)] =
      some ⟨[((100 : ℚ), (10 : ℚ)), (200, 30)].length,
        sumS [((100 : ℚ), (10 : ℚ)), (200, 30)] / (([((100 : ℚ), (10 : ℚ)), (200, 30)]).length : ℚ),
        sumR [((100 : ℚ), (10 : ℚ)), (200, 30)] / (([((100 : ℚ), (10 : ℚ)), (200, 30)]).length : ℚ)⟩ :=
  ⟨C6_merge_order_independent.1 _ _ (List.Perm.swap _ _ _),
   C6_merge_order_independent.2 _ (by decide)⟩

/-! Helper lemmas about the estimator. -/

theorem calculate_roi_some {i : ProjectionInput} {r : ProjectionResult}
    (h : calculate_roi i = some r) : r = estimateResult i := by
  unfold calculate_roi at h
  split at h
  · cases h
  · exact (Option.some_inj.mp h).symm

theorem calculate_roi_valid (i : ProjectionInput)
    (h : ¬ (i.process_name = "" ∨ i.hours_per_week = 0 ∨ i.hourly_cost = 0)) :
    calculate_roi i = some (estimateResult i) := by
  unfold calculate_roi
  rw [if_neg h]

theorem exampleInput_annual_savings : annual_savings exampleInput = 120000 := by
  have hai : annual_ai_cost exampleInput = 4800 := by decide
  have hh : exampleInput.hours_per_week = 30 := rfl
  have hc : exampleInput.hourly_cost = 40 := rfl
  have hp : exampleInput.people_count = 2 := rfl
  have ht : exampleInput.current_tools_cost = 0 := rfl
  norm_num [annual_savings, annual_cost_current, annual_labor_cost, weekly_cost,
    annual_tools_cost, annual_cost_with_ai, hai, hh, hc, hp, ht]

/-- Claim C2, counterexample: on the worked example input the code tiers
the monthly AI cost at 400 (20 <= 30 < 40), not the 200 the claim states,
so annual_ai_cost is 4800 and annual_savings 120000, not 2400 and 122400. -/
theorem C2_counterexample :
    (calculate_roi exampleInput).map ProjectionResult.monthly_ai_cost = some 400 ∧
    (calculate_roi exampleInput).map ProjectionResult.monthly_ai_cost ≠ some 200 := by
  constructor <;> decide

/-- Claim C2 (amended): for hours_per_week 30, people_count 2, hourly_cost
40, current_tools_cost 0, process Invoice Processing and industry absent,
calculate_roi returns weekly_cost 2400, annual_labor_cost 124800,
annual_tools_cost 0, annual_cost_current 124800, complexity_score 0,
implementation_cost 8000, monthly_ai_cost 400, annual_ai_cost 4800,
annual_savings 120000, roi_percentage 1400, breakeven_months 1, risk Low,
the strongest recommendation tier, and an empty industry note. -/
theorem C2_example_projection :
    calculate_roi exampleInput =
      some ⟨2400, 124800, 0, 124800, 0, 8000, 400, 4800, 120000, 1400, 1, "Low",
        RecommendationTier.strong, ""⟩ := by
  have hh : exampleInput.hours_per_week = 30 := rfl
  have hp : exampleInput.people_count = 2 := rfl
  have hc : exampleInput.hourly_cost = 40 := rfl
  have ht : exampleInput.current_tools_cost = 0 := rfl
  have hsc : complexity_score exampleInput = 0 := by decide
  have him : impl_cost exampleInput = 8000 := by decide
  have hai : annual_ai_cost exampleInput = 4800 := by decide
  have hmo : monthly_ai_cost exampleInput.hours_per_week = 400 := by decide
  have hw : weekly_cost exampleInput = 2400 := by norm_num [weekly_cost, hh, hp, hc]
  have hal : annual_labor_cost exampleInput = 124800 := by norm_num [annual_labor_cost, hw]
  have hat : annual_tools_cost exampleInput = 0 := by norm_num [annual_tools_cost, ht]
  have hac : annual_cost_current exampleInput = 124800 := by
    norm_num [annual_cost_current, hal, hat]
  have hsav : annual_savings exampleInput = 120000 := exampleInput_annual_savings
  have hroi : roi_percentage exampleInput = 1400 := by
    norm_num [roi_percentage, hsav, him]
  have hbe : breakeven_months exampleInput = 1 := by
    norm_num [breakeven_months, hsav, him, pyRound]
  have hrisk : risk_level exampleInput = "Low" := by
    norm_num [risk_level, riskLevel, automation_percentage, hbe, hsc, hsav, him]
  have htier : recommendation_tier (roi_percentage exampleInput) (breakeven_months exampleInput)
      = RecommendationTier.strong := by
    norm_num [recommendation_tier, hroi, hbe]
  have hnote : industry_note exampleInput.industry = "" := rfl
  have hval : ¬ (exampleInput.process_name = "" ∨ exampleInput.hours_per_week = 0 ∨
      exampleInput.hourly_cost = 0) := by decide
  rw [calculate_roi_valid exampleInput hval]
  refine congrArg some ?_
  rw [estimateResult]
  simp only [ProjectionResult.mk.injEq]
  exact ⟨hw, hal, hat, hac, hsc, him, hmo, hai, hsav, hroi, hbe, hrisk, htier, hnote⟩

theorem tinyInput_annual_savings : annual_savings tinyInput = -2348 := by
  have hai : annual_ai_cost tinyInput = 2400 := by decide
  have hh : tinyInput.hours_per_week = 1 := rfl
  have hc : tinyInput.hourly_cost = 1 := rfl
  have hp : tinyInput.people_count = 1 := rfl
  have ht : tinyInput.current_tools_cost = 0 := rfl
  norm_num [annual_savings, annual_cost_current, annual_labor_cost, weekly_cost,
    annual_tools_cost, annual_cost_with_ai, hai, hh, hc, hp, ht]

theorem exampleInput_breakeven : breakeven_months exampleInput = 1 := by
  have him : impl_cost exampleInput = 8000 := by decide
  norm_num [breakeven_months, exampleInput_annual_savings, him, pyRound]

/-- Claim C3: for every input that passes validation, the monthly AI cost
is 200 below 20 hours, 400 from 20 to 39 hours, 800 from 40 hours on,
and the annual AI cost is 12 times the monthly one. -/
theorem C3_monthly_ai_tiers :
    ∀ (i : ProjectionInput) (r : ProjectionResult), calculate_roi i = some r →
      (i.hours_per_week < 20 → r.monthly_ai_cost = 200) ∧
      (20 ≤ i.hours_per_week → i.hours_per_week ≤ 39 → r.monthly_ai_cost = 400) ∧
      (40 ≤ i.hours_per_week → r.monthly_ai_cost = 800) ∧
      r.annual_ai_cost = 12 * r.monthly_ai_cost := by
  intro i r h
  rw [calculate_roi_some h]
  refine ⟨?_, ?_, ?_, ?_⟩
  · intro hlt
    show monthly_ai_cost i.hours_per_week = 200
    rw [monthly_ai_cost, if_pos hlt]
  · intro h1 h2
    show monthly_ai_cost i.hours_per_week = 400
    rw [monthly_ai_cost, if_neg (by omega), if_pos (by omega)]
  · intro h1
    show monthly_ai_cost i.hours_per_week = 800
    rw [monthly_ai_cost, if_neg (by omega), if_neg (by omega)]
  · show annual_ai_cost i = 12 * monthly_ai_cost i.hours_per_week
    rw [annual_ai_cost, Nat.mul_comm]

/-- Claim C3 witness: the worked example input sits in the middle tier. -/
theorem C3_witness :
    (estimateResult exampleInput).monthly_ai_cost = 400 ∧
    (estimateResult exampleInput).annual_ai_cost =
      12 * (estimateResult exampleInput).monthly_ai_cost :=
  ⟨(C3_monthly_ai_tiers exampleInput _ (calculate_roi_valid _ (by decide))).2.1
      (by decide) (by decide),
   (C3_monthly_ai_tiers exampleInput _ (calculate_roi_valid _ (by decide))).2.2.2⟩

/-- Claim C4: for every input that passes validation, breakeven_months is
max 1 (round(implementation_cost / annual_savings * 12)) when
annual_savings is positive and exactly the sentinel 999 when
annual_savings is zero or negative. -/
theorem C4_breakeven_rule :
    ∀ (i : ProjectionInput) (r : ProjectionResult), calculate_roi i = some r →
      (0 < r.annual_savings →
        r.breakeven_months =
          max 1 (pyRound ((r.implementation_cost : ℚ) / r.annual_savings * 12))) ∧
      (r.annual_savings ≤ 0 → r.breakeven_months = 999) := by
  intro i r h
  rw [calculate_roi_some h]
  constructor
  · intro hpos
    have hpos2 : 0 < annual_savings i := hpos
    show breakeven_months i = _
    rw [breakeven_months, if_pos hpos2]
    rfl
  · intro hle
    have hle2 : ¬ 0 < annual_savings i := not_lt.mpr hle
    show breakeven_months i = 999
    rw [breakeven_months, if_neg hle2]

/-- Claim C4 witness: positive savings on the worked example give the
rounded formula, and the negative-savings tiny input gives 999. -/
theorem C4_witness :
    0 < (estimateResult exampleInput).annual_savings ∧
    (estimateResult exampleInput).breakeven_months =
      max 1 (pyRound (((estimateResult exampleInput).implementation_cost : ℚ)
        / (estimateResult exampleInput).annual_savings * 12)) ∧
    (estimateResult tinyInput).annual_savings ≤ 0 ∧
    (estimateResult tinyInput).breakeven_months = 999 := by
  have hpos : 0 < (estimateResult exampleInput).annual_savings := by
    show (0 : ℚ) < annual_savings exampleInput
    rw [exampleInput_annual_savings]
    norm_num
  have hneg : (estimateResult tinyInput).annual_savings ≤ 0 := by
    show annual_savings tinyInput ≤ (0 : ℚ)
    rw [tinyInput_annual_savings]
    norm_num
  exact ⟨hpos, (C4_breakeven_rule _ _ (calculate_roi_valid _ (by decide))).1 hpos,
    hneg, (C4_breakeven_rule _ _ (calculate_roi_valid _ (by decide))).2 hneg⟩

/-- Claim C5: for every input that passes validation, the risk level is
decided by the first matching rule of the ordered chain: automation over
0.8 gives High, otherwise breakeven over 18 gives High, otherwise
complexity over 5 gives Medium, otherwise savings below implementation
cost gives High, otherwise Low. -/
theorem C5_risk_priority :
    ∀ (i : ProjectionInput) (r : ProjectionResult), calculate_roi i = some r →
      (8/10 < automation_percentage → r.risk_level = "High") ∧
      (¬ 8/10 < automation_percentage → 18 < r.breakeven_months →
        r.risk_level = "High") ∧
      (¬ 8/10 < automation_percentage → ¬ 18 < r.breakeven_months →
        5 < r.complexity_score → r.risk_level = "Medium") ∧
      (¬ 8/10 < automation_percentage → ¬ 18 < r.breakeven_months →
        ¬ 5 < r.complexity_score → r.annual_savings < (r.implementation_cost : ℚ) →
        r.risk_level = "High") ∧
      (¬ 8/10 < automation_percentage → ¬ 18 < r.breakeven_months →
        ¬ 5 < r.complexity_score → ¬ r.annual_savings < (r.implementation_cost : ℚ) →
        r.risk_level = "Low") := by
  intro i r h
  rw [calculate_roi_some h]
  refine ⟨?_, ?_, ?_, ?_, ?_⟩
  · intro h1
    show risk_level i = "High"
    rw [risk_level, riskLevel, if_pos h1]
  · intro h1 h2
    have h2b : 18 < breakeven_months i := h2
    show risk_level i = "High"
    rw [risk_level, riskLevel, if_neg h1, if_pos h2b]
  · intro h1 h2 h3
    have h2b : ¬ 18 < breakeven_months i := h2
    have h3b : 5 < complexity_score i := h3
    show risk_level i = "Medium"
    rw [risk_level, riskLevel, if_neg h1, if_neg h2b, if_pos h3b]
  · intro h1 h2 h3 h4
    have h2b : ¬ 18 < breakeven_months i := h2
    have h3b : ¬ 5 < complexity_score i := h3
    have h4b : annual_savings i < (impl_cost i : ℚ) := h4
    show risk_level i = "High"
    rw [risk_level, riskLevel, if_neg h1, if_neg h2b, if_neg h3b, if_pos h4b]
  · intro h1 h2 h3 h4
    have h2b : ¬ 18 < breakeven_months i := h2
    have h3b : ¬ 5 < complexity_score i := h3
    have h4b : ¬ annual_savings i < (impl_cost i : ℚ) := h4
    show risk_level i = "Low"
    rw [risk_level, riskLevel, if_neg h1, if_neg h2b, if_neg h3b, if_neg h4b]

/-- Claim C5 witness: on the worked example no rule fires and the level
is Low. -/
theorem C5_witness : (estimateResult exampleInput).risk_level = "Low" := by
  have h1 : ¬ 8/10 < automation_percentage := by norm_num [automation_percentage]
  have h2 : ¬ 18 < (estimateResult exampleInput).breakeven_months := by
    show ¬ 18 < breakeven_months exampleInput
    rw [exampleInput_breakeven]
    norm_num
  have h3 : ¬ 5 < (estimateResult exampleInput).complexity_score := by decide
  have h4 : ¬ (estimateResult exampleInput).annual_savings
      < ((estimateResult exampleInput).implementation_cost : ℚ) := by
    show ¬ annual_savings exampleInput < ((impl_cost exampleInput : ℕ) : ℚ)
    have him : impl_cost exampleInput = 8000 := by decide
    rw [exampleInput_annual_savings, him]
    norm_num
  exact (C5_risk_priority _ _ (calculate_roi_valid _ (by decide))).2.2.2.2 h1 h2 h3 h4

theorem implementation_cost_mono {a b : ℕ} (h : a ≤ b) :
    implementation_cost a ≤ implementation_cost b := by
  rw [implementation_cost, implementation_cost]
  split_ifs <;> omega

/-- Claim C7: if a second input satisfies a superset of the four
complexity-triggering conditions, its complexity score is at least the
first one and its implementation-cost tier is never lower. -/
theorem C7_complexity_monotone :
    ∀ i j : ProjectionInput,
      (40 < i.hours_per_week → 40 < j.hours_per_week) →
      (5 < i.people_count → 5 < j.people_count) →
      (hasDataKeyword i.process_name = true → hasDataKeyword j.process_name = true) →
      (hasCustomerKeyword i.process_name = true → hasCustomerKeyword j.process_name = true) →
      complexity_score i ≤ complexity_score j ∧ impl_cost i ≤ impl_cost j := by
  intro i j h1 h2 h3 h4
  have a1 : (if 40 < i.hours_per_week then 2 else 0)
      ≤ (if 40 < j.hours_per_week then 2 else 0) := by
    by_cases hi : 40 < i.hours_per_week
    · rw [if_pos hi, if_pos (h1 hi)]
    · rw [if_neg hi]; exact Nat.zero_le _
  have a2 : (if 5 < i.people_count then 2 else 0)
      ≤ (if 5 < j.people_count then 2 else 0) := by
    by_cases hi : 5 < i.people_count
    · rw [if_pos hi, if_pos (h2 hi)]
    · rw [if_neg hi]; exact Nat.zero_le _
  have a3 : (if hasDataKeyword i.process_name then 1 else 0)
      ≤ (if hasDataKeyword j.process_name then 1 else 0) := by
    by_cases hi : hasDataKeyword i.process_name = true
    · rw [if_pos hi, if_pos (h3 hi)]
    · rw [if_neg hi]; exact Nat.zero_le _
  have a4 : (if hasCustomerKeyword i.process_name then 1 else 0)
      ≤ (if hasCustomerKeyword j.process_name then 1 else 0) := by
    by_cases hi : hasCustomerKeyword i.process_name = true
    · rw [if_pos hi, if_pos (h4 hi)]
    · rw [if_neg hi]; exact Nat.zero_le _
  have hsc : complexity_score i ≤ complexity_score j := by
    rw [complexity_score, complexity_score]
    exact Nat.add_le_add (Nat.add_le_add (Nat.add_le_add a1 a2) a3) a4
  exact ⟨hsc, implementation_cost_mono hsc⟩

/-- Claim C7 witness: the simple input triggers no condition, the complex
one all four, and both orderings hold. -/
theorem C7_witness :
    complexity_score simpleInput ≤ complexity_score complexInput ∧
    impl_cost simpleInput ≤ impl_cost complexInput :=
  C7_complexity_monotone simpleInput complexInput (by decide) (by decide)
    (by decide) (by decide)

theorem note_ne_empty (x y : String) : "Note: " ++ x ++ y ≠ "" := by
  intro h
  have hlen := congrArg String.length h
  rw [String.length_append, String.length_append] at hlen
  have h6 : ("Note: " : String).length = 6 := rfl
  have h0 : ("" : String).length = 0 := rfl
  omega

/-- Claim C9: for every input that passes validation, the industry note is
nonempty exactly when the lowered industry is one of healthcare, finance,
legal, logistics, manufacturing, retail, ecommerce. -/
theorem C9_industry_note_iff :
    ∀ (i : ProjectionInput) (r : ProjectionResult), calculate_roi i = some r →
      (r.industry_note ≠ "" ↔
        ∃ s, i.industry = some s ∧
          strLower s ∈ (["healthcare", "finance", "legal", "logistics",
            "manufacturing", "retail", "ecommerce"] : List String)) := by
  intro i r h
  rw [calculate_roi_some h]
  show industry_note i.industry ≠ "" ↔ _
  cases hind : i.industry with
  | none => simp [industry_note]
  | some ind =>
    have hexists : (∃ s, some ind = some s ∧
        strLower s ∈ (["healthcare", "finance", "legal", "logistics",
          "manufacturing", "retail", "ecommerce"] : List String)) ↔
        strLower ind ∈ (["healthcare", "finance", "legal", "logistics",
          "manufacturing", "retail", "ecommerce"] : List String) := by
      constructor
      · rintro ⟨s, hs, hp⟩
        obtain rfl := Option.some_inj.mp hs
        exact hp
      · intro hp
        exact ⟨ind, rfl, hp⟩
    rw [hexists]
    simp only [industry_note]
    split_ifs with h0 h1 h2 h3
    · subst h0
      exact iff_of_false (by simp) (by decide)
    · refine iff_of_true (note_ne_empty _ _) ?_
      simp only [List.mem_cons, List.not_mem_nil, or_false] at h1 ⊢
      tauto
    · refine iff_of_true (note_ne_empty _ _) ?_
      simp only [List.mem_cons, List.not_mem_nil, or_false] at h2 ⊢
      tauto
    · refine iff_of_true (note_ne_empty _ _) ?_
      simp only [List.mem_cons, List.not_mem_nil, or_false] at h3 ⊢
      tauto
    · refine iff_of_false (by simp) ?_
      simp only [List.mem_cons, List.not_mem_nil, or_false] at h1 h2 h3 ⊢
      tauto

/-- Claim C9 witness: industry Healthcare yields a nonempty note. -/
theorem C9_witness : (estimateResult healthcareInput).industry_note ≠ "" :=
  (C9_industry_note_iff _ _ (calculate_roi_valid _ (by decide))).mpr
    ⟨"Healthcare", rfl, by decide⟩

/-- Claim C10: the automation fraction is the constant 0.65, which never
exceeds 0.8, so the first risk rule cannot fire and the risk level of
every validated input is decided by breakeven months, complexity score
and the savings-versus-implementation-cost comparison alone. -/
theorem C10_automation_rule_unreachable :
    ¬ 8/10 < automation_percentage ∧
    ∀ (i : ProjectionInput) (r : ProjectionResult), calculate_roi i = some r →
      r.risk_level =
        (if 18 < r.breakeven_months then "High"
         else if 5 < r.complexity_score then "Medium"
         else if r.annual_savings < (r.implementation_cost : ℚ) then "High"
         else "Low") := by
  have hna : ¬ 8/10 < automation_percentage := by norm_num [automation_percentage]
  refine ⟨hna, ?_⟩
  intro i r h
  rw [calculate_roi_some h]
  show risk_level i = _
  rw [risk_level, riskLevel, if_neg hna]
  rfl

/-- Claim C10 witness: instantiated on the worked example. -/
theorem C10_witness :
    (estimateResult exampleInput).risk_level =
      (if 18 < (estimateResult exampleInput).breakeven_months then "High"
       else if 5 < (estimateResult exampleInput).complexity_score then "Medium"
       else if (estimateResult exampleInput).annual_savings
           < ((estimateResult exampleInput).implementation_cost : ℚ) then "High"
       else "Low") :=
  C10_automation_rule_unreachable.2 _ _ (calculate_roi_valid _ (by decide))

theorem foldl_max_mem (f : String → ℚ) (l : List String) :
    ∀ a : String, l.foldl (fun b y => if f b < f y then y else b) a ∈ a :: l := by
  induction l with
  | nil => intro a; exact List.mem_singleton.mpr rfl
  | cons y t ih =>
    intro a
    rw [List.foldl_cons]
    rcases List.mem_cons.mp (ih (if f a < f y then y else a)) with h1 | h1
    · rw [h1]
      by_cases hc : f a < f y
      · rw [if_pos hc]
        exact List.mem_cons_of_mem _ (List.mem_cons_self _ _)
      · rw [if_neg hc]
        exact List.mem_cons_self _ _
    · exact List.mem_cons_of_mem _ (List.mem_cons_of_mem _ h1)

theorem argmaxBy_mem {f : String → ℚ} {l : List String} {x : String}
    (h : argmaxBy f l = some x) : x ∈ l := by
  cases l with
  | nil => cases h
  | cons a t =>
    rw [argmaxBy] at h
    obtain rfl := Option.some_inj.mp h
    exact foldl_max_mem f t a

theorem argmaxBy_of_ne_nil {f : String → ℚ} {l : List String} (h : l ≠ []) :
    ∃ x, argmaxBy f l = some x := by
  cases l with
  | nil => exact absurd rfl h
  | cons a t => exact ⟨_, rfl⟩

theorem qualifyingProcs_eq_nil (ps : List RoiProjection)
    (h : ∀ n ∈ procNames ps, procCount ps n < 3) : qualifyingProcs ps = [] := by
  rw [qualifyingProcs]
  refine List.filter_eq_nil_iff.mpr ?_
  intro a ha
  have := h a ha
  simp only [decide_eq_true_eq]
  omega

theorem qualifyingInds_eq_nil (ps : List RoiProjection)
    (h : ∀ i ∈ indNames ps, indCount ps i < 3) : qualifyingInds ps = [] := by
  rw [qualifyingInds]
  refine List.filter_eq_nil_iff.mpr ?_
  intro a ha
  have := h a ha
  simp only [decide_eq_true_eq]
  omega

theorem mem_procNames_of_count_pos (ps : List RoiProjection) (n : String)
    (h : 0 < procCount ps n) : n ∈ procNames ps := by
  rw [procCount, procMatches] at h
  obtain ⟨p, hp⟩ := List.exists_mem_of_length_pos h
  obtain ⟨hmem, hpred⟩ := List.mem_filter.mp hp
  rw [procNames]
  exact List.mem_dedup.mpr (List.mem_map.mpr ⟨p, hmem, of_decide_eq_true hpred⟩)

theorem mem_indNames_of_count_pos (ps : List RoiProjection) (i : String)
    (h : 0 < indCount ps i) : i ∈ indNames ps := by
  rw [indCount, indMatches] at h
  obtain ⟨p, hp⟩ := List.exists_mem_of_length_pos h
  obtain ⟨hmem, hpred⟩ := List.mem_filter.mp hp
  rw [indNames]
  exact List.mem_dedup.mpr (List.mem_filterMap.mpr ⟨p, hmem, of_decide_eq_true hpred⟩)

/-- Claim C8: with fewer than 3 observations in every process and industry
group, analyze_patterns emits no insight; with exactly one group at
exactly 3 and all others below, it emits exactly one insight of the
corresponding type, best_roi_process carrying confidence 0.95 and
best_savings_industry carrying 0.90; an empty ranking is skipped
silently. -/
theorem C8_analysis_thresholds :
    (∀ ps : List RoiProjection,
        (∀ n ∈ procNames ps, procCount ps n < 3) →
        (∀ i ∈ indNames ps, indCount ps i < 3) →
        analyze_patterns ps = [])
    ∧ (∀ (ps : List RoiProjection) (n : String),
        procCount ps n = 3 →
        (∀ m ∈ procNames ps, m ≠ n → procCount ps m < 3) →
        (∀ i ∈ indNames ps, indCount ps i < 3) →
        analyze_patterns ps =
          [⟨"best_roi_process", 95/100, n, 3, procAvgSavings ps n, procAvgRoi ps n⟩])
    ∧ (∀ (ps : List RoiProjection) (i : String),
        indCount ps i = 3 →
        (∀ j ∈ indNames ps, j ≠ i → indCount ps j < 3) →
        (∀ n ∈ procNames ps, procCount ps n < 3) →
        analyze_patterns ps =
          [⟨"best_savings_industry", 90/100, i, 3, indAvgSavings ps i, indAvgRoi ps i⟩]) := by
  refine ⟨?_, ?_, ?_⟩
  · intro ps hp hi
    rw [analyze_patterns, topProcess, topIndustry,
      qualifyingProcs_eq_nil ps hp, qualifyingInds_eq_nil ps hi]
    rfl
  · intro ps n h3 hother hind
    have hnmem : n ∈ qualifyingProcs ps := by
      rw [qualifyingProcs]
      exact List.mem_filter.mpr
        ⟨mem_procNames_of_count_pos ps n (by omega), decide_eq_true (by omega)⟩
    have hqne : qualifyingProcs ps ≠ [] := fun hh => by
      rw [hh] at hnmem
      cases hnmem
    obtain ⟨x, hx⟩ := argmaxBy_of_ne_nil (f := procAvgRoi ps) hqne
    have hxq := argmaxBy_mem hx
    have hxn : x = n := by
      by_contra hne
      obtain ⟨hxnames, hpred⟩ := List.mem_filter.mp hxq
      have hge : 3 ≤ procCount ps x := of_decide_eq_true hpred
      have := hother x hxnames hne
      omega
    subst hxn
    rw [analyze_patterns, topProcess, topIndustry, hx,
      qualifyingInds_eq_nil ps hind]
    simp [argmaxBy, h3]
  · intro ps i h3 hother hproc
    have himem : i ∈ qualifyingInds ps := by
      rw [qualifyingInds]
      exact List.mem_filter.mpr
        ⟨mem_indNames_of_count_pos ps i (by omega), decide_eq_true (by omega)⟩
    have hqne : qualifyingInds ps ≠ [] := fun hh => by
      rw [hh] at himem
      cases himem
    obtain ⟨x, hx⟩ := argmaxBy_of_ne_nil (f := indAvgSavings ps) hqne
    have hxq := argmaxBy_mem hx
    have hxi : x = i := by
      by_contra hne
      obtain ⟨hxnames, hpred⟩ := List.mem_filter.mp hxq
      have hge : 3 ≤ indCount ps x := of_decide_eq_true hpred
      have := hother x hxnames hne
      omega
    subst hxi
    rw [analyze_patterns, topProcess, topIndustry, hx,
      qualifyingProcs_eq_nil ps hproc]
    simp [argmaxBy, h3]

/-- Claim C8 witness: three projections of one process and no industry
yield exactly the best_roi_process insight at confidence 0.95. -/
theorem C8_witness :
    analyze_patterns threeOfOneProcess =
      [⟨"best_roi_process", 95/100, "Invoice Processing", 3,
        procAvgSavings threeOfOneProcess "Invoice Processing",
        procAvgRoi threeOfOneProcess "Invoice Processing"⟩] :=
  C8_analysis_thresholds.2.1 threeOfOneProcess "Invoice Processing" (by decide)
    (by decide) (by decide)
